import Mathlib

/-!
Verification of the pipeline-dashboard fetch/cache/aggregate core.

Shallow embedding of `src/pipeline_visualizer.py` and `src/utils/azure_api.py`.
HTTP responses are modelled as explicit values handed to the response-handling
code; JSON records become structures with optional fields where the source uses
`dict.get` with a default, and required fields where it indexes directly.
Python `round(x, 2)` (round half to even, two decimals) is modelled exactly on
rationals.
-/

set_option autoImplicit false

/-- Python `str.capitalize()`: first character uppercased, the rest lowercased. -/
def pyCapitalize (s : String) : String :=
  match s.data with
  | [] => ""
  | c :: cs => String.mk (c.toUpper :: cs.map Char.toLower)

/-- Python `str.lower()` (ASCII range, which covers the outcome literals the
source compares against). -/
def pyLower (s : String) : String :=
  String.mk (s.data.map Char.toLower)

/-- Case-insensitive string comparison, as used by the spec's phrase
"case-insensitively equals". -/
def caseInsensitiveEq (s t : String) : Bool :=
  pyLower s == pyLower t

/-- Python's `sub in s` substring test (case-sensitive, exact substring):
the character list of `sub` occurs contiguously inside that of `s`. -/
def strContains (s sub : String) : Bool :=
  decide (sub.data <:+: s.data)

/-- Round a rational to the nearest integer, ties to even — the tie-breaking
rule of Python's builtin `round`. -/
def roundHalfEven (q : ℚ) : ℤ :=
  let f := ⌊q⌋
  if q - (f : ℚ) < 1/2 then f
  else if 1/2 < q - (f : ℚ) then f + 1
  else if f % 2 = 0 then f else f + 1

/-- Python `round(q, 2)`: round to two decimal places, ties to even. -/
def round2 (q : ℚ) : ℚ :=
  (roundHalfEven (q * 100) : ℚ) / 100

/-- A raw build entry of the builds-listing JSON payload: `id` is accessed with
`build["id"]` (required), the remaining fields via `build.get(..., default)`. -/
structure RawBuild where
  id : Int
  buildNumber : Option String
  startTime : Option String
  reason : Option String
  sourceBranch : Option String
  deriving Repr, DecidableEq

/-- The record built for each build by `get_builds_for_pipeline`. -/
structure BuildSummary where
  id : Int
  buildNumber : String
  startTime : String
  description : String
  link : String
  deriving Repr, DecidableEq

/-- One test-outcome record of the test-results payload; the source reads it
with `result.get("outcome", "")`, so the field is optional. -/
structure TestRecord where
  outcome : Option String
  deriving Repr, DecidableEq

/-- The two tolerated JSON shapes of the test-results endpoint: a bare array,
or an object wrapping the array under a `"value"` key. -/
inductive TestBody where
  | bare (records : List TestRecord)
  | wrapped (records : List TestRecord)
  deriving Repr, DecidableEq

/-- The record list the source ends up iterating: the body itself for a bare
array, the `"value"` entry for the wrapped shape. -/
def TestBody.records : TestBody → List TestRecord
  | .bare l => l
  | .wrapped l => l

/-- Builds-listing JSON body: `response.json().get("value", [])` — an object
whose `"value"` key may be absent. -/
def BuildsBody : Type := Option (List RawBuild)

instance : DecidableEq BuildsBody := by
  unfold BuildsBody
  infer_instance

/-- An HTTP response as consumed by the source: status code, parsed JSON body,
and the raw text used in error messages. -/
structure HttpResponse (β : Type) where
  status : Nat
  body : β
  text : String

/-- `{"passed": …, "failed": …, "total": …}` returned by
`get_aggregated_test_results`. -/
structure TestOutcomeTally where
  passed : Nat
  failed : Nat
  total : Nat
  deriving Repr, DecidableEq

/-- One aggregated per-build row appended by `process_data`. -/
structure AggregatedRecord where
  datetime : String
  buildLabel : String
  passed : Nat
  failed : Nat
  total : Nat
  passRate : ℚ
  failRate : ℚ
  link : String
  deriving Repr, DecidableEq

/-- URL built by the module-level `get_builds_for_pipeline`
(`src/pipeline_visualizer.py` lines 34-37), with the configured
`ORGANIZATION`/`PROJECT` passed explicitly. -/
def buildsUrl (organization project : String) (pipeline_id : Int)
    (max_builds : Option Int) : String :=
  let base_url := "https://dev.azure.com/" ++ organization ++ "/" ++ project ++
    "/_apis/build/builds?definitions=" ++ toString pipeline_id
  let base_url := match max_builds with
    | none => base_url
    | some m => base_url ++ "&maxBuildsPerDefinition=" ++ toString m
  base_url ++ "&api-version=7.1-preview.7"

/-- Response handling of the module-level `get_builds_for_pipeline`
(`src/pipeline_visualizer.py` lines 40-51). The second component records
whether `st.error` was invoked. -/
def get_builds_for_pipeline (organization project : String)
    (response : HttpResponse BuildsBody) : List BuildSummary × Bool :=
  if response.status = 200 then
    let builds := response.body.getD []
    (builds.map (fun build =>
      let bn := build.buildNumber.getD "N/A"
      { id := build.id
        buildNumber := bn
        startTime := build.startTime.getD ""
        description := "#" ++ bn ++ " • " ++ pyCapitalize (build.reason.getD "Manual")
          ++ " (" ++ build.sourceBranch.getD "Unknown Branch" ++ ")"
        link := "https://dev.azure.com/" ++ organization ++ "/" ++ project ++
          "/_build/results?buildId=" ++ toString build.id }), false)
  else
    ([], true)

/-- URL built by the module-level `get_aggregated_test_results`
(`src/pipeline_visualizer.py` line 56). -/
def testResultsUrl (organization project : String) (build_id : Int) : String :=
  "https://vstmr.dev.azure.com/" ++ organization ++ "/" ++ project ++
    "/_apis/testresults/resultsbybuild?buildId=" ++ toString build_id ++
    "&api-version=7.1-preview.1"

/-- The outcome string the source compares: `result.get("outcome", "").lower()`. -/
def outcomeOf (r : TestRecord) : String :=
  pyLower (r.outcome.getD "")

/-- Response handling of the module-level `get_aggregated_test_results`
(`src/pipeline_visualizer.py` lines 59-68). The second component records
whether `st.warning` was invoked. -/
def get_aggregated_test_results (response : HttpResponse TestBody) :
    TestOutcomeTally × Bool :=
  if response.status = 200 then
    let results := response.body.records
    ({ passed := results.countP (fun r => outcomeOf r == "passed")
       failed := results.countP (fun r => outcomeOf r == "failed")
       total := results.length }, false)
  else
    ({ passed := 0, failed := 0, total := 0 }, true)

/-- The loop body of `process_data` (`src/pipeline_visualizer.py` lines 72-89):
the row appended for one build, given the (cached) test-result fetch as a
capability. -/
def processBuild (fetch : Int → TestOutcomeTally) (build : BuildSummary) :
    AggregatedRecord :=
  let t := fetch build.id
  { datetime := build.startTime
    buildLabel := build.buildNumber
    passed := t.passed
    failed := t.failed
    total := t.total
    passRate := if 0 < t.total then round2 ((t.passed : ℚ) / (t.total : ℚ) * 100) else 0
    failRate := if 0 < t.total then round2 ((t.failed : ℚ) / (t.total : ℚ) * 100) else 0
    link := build.link }

/-- `process_data` (`src/pipeline_visualizer.py` lines 70-93): one aggregated
row per input build, in input order. -/
def process_data (fetch : Int → TestOutcomeTally) (builds : List BuildSummary) :
    List AggregatedRecord :=
  builds.map (processBuild fetch)

/-- The build-filter step (`src/pipeline_visualizer.py` lines 134-136): a
`"None"` selection is a pass-through, otherwise keep the builds whose
`buildNumber` contains the configured substring `buildFilters selected`. -/
def filterBuilds (selected : String) (buildFilters : String → String)
    (builds : List BuildSummary) : List BuildSummary :=
  if selected = "None" then builds
  else builds.filter (fun build => strContains build.buildNumber (buildFilters selected))

namespace AzureAPI

/-- `AzureAPI.get_latest_build_no_cache` (`src/utils/azure_api.py` lines 15-24):
the uncached staleness probe, returning the bare list of build ids on a 200
response and `[]` otherwise (an empty `"value"` list also yields `[]`). -/
def get_latest_build_no_cache (response : HttpResponse BuildsBody) : List Int :=
  if response.status = 200 then (response.body.getD []).map (fun build => build.id)
  else []

/-- URL built by `AzureAPI.get_builds_for_pipeline`
(`src/utils/azure_api.py` lines 28-31). -/
def buildsUrl (organization project : String) (pipeline_id : Int)
    (max_builds : Option Int) : String :=
  let base_url := "https://dev.azure.com/" ++ organization ++ "/" ++ project ++
    "/_apis/build/builds?definitions=" ++ toString pipeline_id
  let base_url := match max_builds with
    | none => base_url
    | some m => base_url ++ "&maxBuildsPerDefinition=" ++ toString m
  base_url ++ "&api-version=7.1-preview.7"

/-- Response handling of `AzureAPI.get_builds_for_pipeline`
(`src/utils/azure_api.py` lines 33-44). `pat` models the instance state
`_self.pat`; it feeds only the auth header, not the returned value. -/
def get_builds_for_pipeline (pat organization project : String)
    (response : HttpResponse BuildsBody) : List BuildSummary × Bool :=
  if response.status = 200 then
    let builds := response.body.getD []
    (builds.map (fun build =>
      let bn := build.buildNumber.getD "N/A"
      { id := build.id
        buildNumber := bn
        startTime := build.startTime.getD ""
        description := "#" ++ bn ++ " • " ++ pyCapitalize (build.reason.getD "Manual")
          ++ " (" ++ build.sourceBranch.getD "Unknown Branch" ++ ")"
        link := "https://dev.azure.com/" ++ organization ++ "/" ++ project ++
          "/_build/results?buildId=" ++ toString build.id }), false)
  else
    ([], true)

/-- URL built by `AzureAPI.get_aggregated_test_results`
(`src/utils/azure_api.py` line 48). -/
def testResultsUrl (organization project : String) (build_id : Int) : String :=
  "https://vstmr.dev.azure.com/" ++ organization ++ "/" ++ project ++
    "/_apis/testresults/resultsbybuild?buildId=" ++ toString build_id ++
    "&api-version=7.1-preview.1"

/-- Response handling of `AzureAPI.get_aggregated_test_results`
(`src/utils/azure_api.py` lines 50-59). -/
def get_aggregated_test_results (pat : String) (response : HttpResponse TestBody) :
    TestOutcomeTally × Bool :=
  if response.status = 200 then
    let results := response.body.records
    ({ passed := results.countP (fun r => outcomeOf r == "passed")
       failed := results.countP (fun r => outcomeOf r == "failed")
       total := results.length }, false)
  else
    ({ passed := 0, failed := 0, total := 0 }, true)

end AzureAPI

/-- Cache TTL: both `st.cache_data` decorators use `ttl=3600`. -/
def TTL : Nat := 3600

/-- Modelled from the spec: the memoization store of the `st.cache_data`
decorator (an external library, not part of the source files). Entries pair a
key with the stored payload and its insertion time (§3 CacheEntry); lookup
returns the most recently inserted entry for the key. -/
def cacheLookup {κ α : Type} [DecidableEq κ] (k : κ) :
    List (κ × α × Nat) → Option (α × Nat)
  | [] => none
  | (k₀, v, t) :: rest => if k = k₀ then some (v, t) else cacheLookup k rest

/-- Modelled from the spec: one cached call through the `st.cache_data`
wrapper (§4.3). A stored entry younger than `TTL` is returned with no network
call; otherwise the real `fetch` runs, the result is stored with the current
time, and one network call is counted. Returns (result, new store, number of
network calls performed). -/
def cachedCall {κ α : Type} [DecidableEq κ] (fetch : κ → α) (now : Nat)
    (st : List (κ × α × Nat)) (k : κ) : α × List (κ × α × Nat) × Nat :=
  match cacheLookup k st with
  | some (v, t) =>
    if now < t + TTL then (v, st, 0)
    else
      let v₀ := fetch k
      (v₀, (k, v₀, now) :: st, 1)
  | none =>
    let v₀ := fetch k
    (v₀, (k, v₀, now) :: st, 1)

/-- The two memoization stores of the dashboard: one per wrapped function
(`get_builds_for_pipeline` keyed by (pipeline_id, max_builds),
`get_aggregated_test_results` keyed by build_id). -/
structure DashboardCaches (κ₁ α₁ κ₂ α₂ : Type) where
  buildsEntries : List (κ₁ × α₁ × Nat)
  testEntries : List (κ₂ × α₂ × Nat)

/-- The Clear Cache button handler (`src/pipeline_visualizer.py` lines
123-126): `get_builds_for_pipeline.clear()` and
`get_aggregated_test_results.clear()`, emptying both stores at once. -/
def clearCaches {κ₁ α₁ κ₂ α₂ : Type} (c : DashboardCaches κ₁ α₁ κ₂ α₂) :
    DashboardCaches κ₁ α₁ κ₂ α₂ :=
  { buildsEntries := [], testEntries := [] }

/-- Modelled from the spec: the StalenessMarker store (§4.4); the source files
contain only the probe `AzureAPI.get_latest_build_no_cache`, not the timer tick
that writes the marker. The tick stores the single returned id — the head of
the probe's list, obtained with maxCount=1 — or nothing when the probe yields
no builds, under the pipeline's name. -/
def updateMarker (marker : String → Option Int) (name : String)
    (probeIds : List Int) : String → Option Int :=
  fun n => if n = name then probeIds.head? else marker n

/-- Modelled from the spec: the render-time staleness comparison (§4.4); a
warning is emitted exactly when a marker exists for the pipeline name and
differs from the cached data's newest build id. -/
def stalenessFlag (marker : String → Option Int) (name : String)
    (cachedLatest : Int) : Bool :=
  match marker name with
  | some y => y != cachedLatest
  | none => false

/-! Helper lemmas -/

theorem countP_disjoint_le_length {α : Type} (p q : α → Bool)
    (hpq : ∀ a, p a = true → q a = false) (l : List α) :
    l.countP p + l.countP q ≤ l.length := by
  induction l with
  | nil => simp
  | cons a t ih =>
    cases hb : p a with
    | true =>
      have hc : q a = false := hpq a hb
      simp [List.countP_cons, hb, hc]
      omega
    | false =>
      cases hc : q a <;> simp [List.countP_cons, hb, hc] <;> omega

theorem filter_idem {α : Type} (p : α → Bool) (l : List α) :
    (l.filter p).filter p = l.filter p := by
  induction l with
  | nil => rfl
  | cons a t ih =>
    cases hb : p a <;> simp [List.filter_cons, hb, ih]

/-! Claims -/

/-- C1: every record produced by `process_data` has, when the fetched tally's
total is positive, pass rate `round(passed/total*100, 2)` and fail rate
`round(failed/total*100, 2)`; when the total is zero both rates are `0`
(the division is guarded and never evaluated). -/
theorem claim1_process_data_rates (fetch : Int → TestOutcomeTally)
    (builds : List BuildSummary) (build : BuildSummary) (hb : build ∈ builds) :
    processBuild fetch build ∈ process_data fetch builds ∧
    (0 < (fetch build.id).total →
      (processBuild fetch build).passRate =
        round2 (((fetch build.id).passed : ℚ) / ((fetch build.id).total : ℚ) * 100) ∧
      (processBuild fetch build).failRate =
        round2 (((fetch build.id).failed : ℚ) / ((fetch build.id).total : ℚ) * 100)) ∧
    ((fetch build.id).total = 0 →
      (processBuild fetch build).passRate = 0 ∧
      (processBuild fetch build).failRate = 0) := by
  refine ⟨List.mem_map_of_mem _ hb, fun h => ?_, fun h => ?_⟩
  · simp [processBuild, h]
  · simp [processBuild, h]

theorem claim1_process_data_rates_witness :
    (⟨1, "1.0", "2024-01-01", "", ""⟩ : BuildSummary) ∈
      ([⟨1, "1.0", "2024-01-01", "", ""⟩] : List BuildSummary) ∧
    (processBuild (fun _ => ⟨7, 3, 10⟩) ⟨1, "1.0", "2024-01-01", "", ""⟩ ∈
        process_data (fun _ => ⟨7, 3, 10⟩) [⟨1, "1.0", "2024-01-01", "", ""⟩] ∧
      (0 < (10 : ℕ) →
        (processBuild (fun _ => ⟨7, 3, 10⟩) ⟨1, "1.0", "2024-01-01", "", ""⟩).passRate =
          round2 (((7 : ℕ) : ℚ) / ((10 : ℕ) : ℚ) * 100) ∧
        (processBuild (fun _ => ⟨7, 3, 10⟩) ⟨1, "1.0", "2024-01-01", "", ""⟩).failRate =
          round2 (((3 : ℕ) : ℚ) / ((10 : ℕ) : ℚ) * 100)) ∧
      ((10 : ℕ) = 0 →
        (processBuild (fun _ => ⟨7, 3, 10⟩) ⟨1, "1.0", "2024-01-01", "", ""⟩).passRate = 0 ∧
        (processBuild (fun _ => ⟨7, 3, 10⟩) ⟨1, "1.0", "2024-01-01", "", ""⟩).failRate = 0)) :=
  ⟨by simp, claim1_process_data_rates (fun _ => ⟨7, 3, 10⟩) _ _ (by simp)⟩

/-- C2: on a 200 response, the tally's `passed` counts exactly the records
whose outcome case-insensitively equals "passed", `failed` those
case-insensitively equal to "failed", and `total` counts every record,
whatever (or however absent) its outcome string. -/
theorem claim2_outcome_counts (resp : HttpResponse TestBody)
    (h : resp.status = 200) :
    (get_aggregated_test_results resp).1.passed =
      resp.body.records.countP
        (fun r => caseInsensitiveEq (r.outcome.getD "") "passed") ∧
    (get_aggregated_test_results resp).1.failed =
      resp.body.records.countP
        (fun r => caseInsensitiveEq (r.outcome.getD "") "failed") ∧
    (get_aggregated_test_results resp).1.total = resp.body.records.length := by
  have hp : pyLower "passed" = "passed" := by decide
  have hf : pyLower "failed" = "failed" := by decide
  refine ⟨?_, ?_, ?_⟩ <;>
    simp [get_aggregated_test_results, h, outcomeOf, caseInsensitiveEq, hp, hf]

theorem claim2_outcome_counts_witness :
    (⟨200, TestBody.bare [⟨some "Passed"⟩, ⟨some "failed"⟩, ⟨some "notExecuted"⟩, ⟨none⟩],
        ""⟩ : HttpResponse TestBody).status = 200 ∧
    ((get_aggregated_test_results
        ⟨200, TestBody.bare [⟨some "Passed"⟩, ⟨some "failed"⟩, ⟨some "notExecuted"⟩, ⟨none⟩],
          ""⟩).1.passed =
      (TestBody.bare [⟨some "Passed"⟩, ⟨some "failed"⟩, ⟨some "notExecuted"⟩,
          ⟨none⟩]).records.countP
        (fun r => caseInsensitiveEq (r.outcome.getD "") "passed") ∧
    (get_aggregated_test_results
        ⟨200, TestBody.bare [⟨some "Passed"⟩, ⟨some "failed"⟩, ⟨some "notExecuted"⟩, ⟨none⟩],
          ""⟩).1.failed =
      (TestBody.bare [⟨some "Passed"⟩, ⟨some "failed"⟩, ⟨some "notExecuted"⟩,
          ⟨none⟩]).records.countP
        (fun r => caseInsensitiveEq (r.outcome.getD "") "failed") ∧
    (get_aggregated_test_results
        ⟨200, TestBody.bare [⟨some "Passed"⟩, ⟨some "failed"⟩, ⟨some "notExecuted"⟩, ⟨none⟩],
          ""⟩).1.total =
      (TestBody.bare [⟨some "Passed"⟩, ⟨some "failed"⟩, ⟨some "notExecuted"⟩,
          ⟨none⟩]).records.length) :=
  ⟨rfl, claim2_outcome_counts _ rfl⟩

/-- C3: the same record list returns the same tally whether the response body
is a bare array or the same array wrapped under a "value" key, for any status
and any response texts. -/
theorem claim3_shape_tolerance (status : Nat) (l : List TestRecord)
    (tA tB : String) :
    (get_aggregated_test_results ⟨status, TestBody.bare l, tA⟩).1 =
    (get_aggregated_test_results ⟨status, TestBody.wrapped l, tB⟩).1 := by
  by_cases h : status = 200 <;>
    simp [get_aggregated_test_results, TestBody.records, h]

/-- C4: the first call for a fresh key fetches (one network call); a second
call with the identical key within TTL = 3600 time units of that first call
returns the stored result unchanged, leaves the store as it was, and performs
zero network calls. -/
theorem claim4_cache_hit_within_ttl {κ α : Type} [DecidableEq κ]
    (fetch : κ → α) (k : κ) (st₀ : List (κ × α × Nat)) (t₀ t₁ : Nat)
    (hfresh : cacheLookup k st₀ = (none : Option (α × Nat)))
    (h₁ : t₁ < t₀ + TTL) :
    (cachedCall fetch t₀ st₀ k).2.2 = 1 ∧
    (cachedCall fetch t₁ (cachedCall fetch t₀ st₀ k).2.1 k).1 =
      (cachedCall fetch t₀ st₀ k).1 ∧
    (cachedCall fetch t₁ (cachedCall fetch t₀ st₀ k).2.1 k).2.2 = 0 ∧
    (cachedCall fetch t₁ (cachedCall fetch t₀ st₀ k).2.1 k).2.1 =
      (cachedCall fetch t₀ st₀ k).2.1 := by
  have h0 : cachedCall fetch t₀ st₀ k = (fetch k, (k, fetch k, t₀) :: st₀, 1) := by
    simp [cachedCall, hfresh]
  rw [h0]
  have h2 : cacheLookup k ((k, fetch k, t₀) :: st₀) = some (fetch k, t₀) := by
    simp [cacheLookup]
  simp [cachedCall, h2, h₁]

theorem claim4_cache_hit_within_ttl_witness :
    cacheLookup 5 ([] : List (Nat × Nat × Nat)) = (none : Option (Nat × Nat)) ∧
    (100 : Nat) < 0 + TTL ∧
    ((cachedCall (fun _ => 42) 0 ([] : List (Nat × Nat × Nat)) 5).2.2 = 1 ∧
      (cachedCall (fun _ => 42) 100
          (cachedCall (fun _ => 42) 0 ([] : List (Nat × Nat × Nat)) 5).2.1 5).1 =
        (cachedCall (fun _ => 42) 0 ([] : List (Nat × Nat × Nat)) 5).1 ∧
      (cachedCall (fun _ => 42) 100
          (cachedCall (fun _ => 42) 0 ([] : List (Nat × Nat × Nat)) 5).2.1 5).2.2 = 0 ∧
      (cachedCall (fun _ => 42) 100
          (cachedCall (fun _ => 42) 0 ([] : List (Nat × Nat × Nat)) 5).2.1 5).2.1 =
        (cachedCall (fun _ => 42) 0 ([] : List (Nat × Nat × Nat)) 5).2.1) :=
  ⟨rfl, by decide,
    claim4_cache_hit_within_ttl (fun _ => 42) 5 [] 0 100 rfl (by decide)⟩

/-- C5: the manual Clear Cache handler empties the stores of both cached
functions at once, and the next call on either cleared store performs a fresh
fetch (one network call returning the fetched value), whatever time it happens
at and whatever TTL remained for any key. -/
theorem claim5_clear_caches {κ₁ α₁ κ₂ α₂ : Type} [DecidableEq κ₁] [DecidableEq κ₂]
    (c : DashboardCaches κ₁ α₁ κ₂ α₂) (fetchB : κ₁ → α₁) (fetchT : κ₂ → α₂)
    (nowB nowT : Nat) (k₁ : κ₁) (k₂ : κ₂) :
    (clearCaches c).buildsEntries = [] ∧
    (clearCaches c).testEntries = [] ∧
    (cachedCall fetchB nowB (clearCaches c).buildsEntries k₁).2.2 = 1 ∧
    (cachedCall fetchB nowB (clearCaches c).buildsEntries k₁).1 = fetchB k₁ ∧
    (cachedCall fetchT nowT (clearCaches c).testEntries k₂).2.2 = 1 ∧
    (cachedCall fetchT nowT (clearCaches c).testEntries k₂).1 = fetchT k₂ := by
  refine ⟨rfl, rfl, ?_, ?_, ?_, ?_⟩ <;>
    simp [clearCaches, cachedCall, cacheLookup]

/-- C6: on any non-2xx response, the builds fetch surfaces a user-visible
error and returns the empty list, and the test-results fetch surfaces a
user-visible warning and returns the zero tally; both are total functions of
the response, so a failed fetch degrades instead of aborting the render. -/
theorem claim6_error_degradation (organization project : String)
    (respB : HttpResponse BuildsBody) (respT : HttpResponse TestBody)
    (hB : ¬(200 ≤ respB.status ∧ respB.status < 300))
    (hT : ¬(200 ≤ respT.status ∧ respT.status < 300)) :
    get_builds_for_pipeline organization project respB = ([], true) ∧
    get_aggregated_test_results respT = (⟨0, 0, 0⟩, true) := by
  have hB' : respB.status ≠ 200 := fun h => hB (by omega)
  have hT' : respT.status ≠ 200 := fun h => hT (by omega)
  constructor <;>
    simp [get_builds_for_pipeline, get_aggregated_test_results, hB', hT']

theorem claim6_error_degradation_witness :
    ¬(200 ≤ (404 : Nat) ∧ (404 : Nat) < 300) ∧
    ¬(200 ≤ (500 : Nat) ∧ (500 : Nat) < 300) ∧
    (get_builds_for_pipeline "org" "proj"
        ⟨404, (none : Option (List RawBuild)), "not found"⟩ = ([], true) ∧
      get_aggregated_test_results ⟨500, TestBody.bare [], "err"⟩ = (⟨0, 0, 0⟩, true)) :=
  ⟨by decide, by decide,
    claim6_error_degradation "org" "proj" ⟨404, none, "not found"⟩
      ⟨500, TestBody.bare [], "err"⟩ (by decide) (by decide)⟩

/-- C7: the staleness tick stores under the pipeline's name the single id
returned by the uncached probe — the head of `get_latest_build_no_cache`'s
list, or nothing when the probe yields no builds — and the render-time flag
fires exactly when a stored marker exists and differs from the cached data's
newest build id. -/
theorem claim7_staleness (marker : String → Option Int) (name : String)
    (resp : HttpResponse BuildsBody) (cachedLatest : Int) :
    updateMarker marker name (AzureAPI.get_latest_build_no_cache resp) name =
      (AzureAPI.get_latest_build_no_cache resp).head? ∧
    (stalenessFlag (updateMarker marker name (AzureAPI.get_latest_build_no_cache resp))
        name cachedLatest = true ↔
      ∃ y, (AzureAPI.get_latest_build_no_cache resp).head? = some y ∧
        y ≠ cachedLatest) := by
  constructor
  · simp [updateMarker]
  · cases h : (AzureAPI.get_latest_build_no_cache resp).head? with
    | none => simp [stalenessFlag, updateMarker, h]
    | some y => simp [stalenessFlag, updateMarker, h, bne_iff_ne]

theorem tally_passed_failed_le (resp : HttpResponse TestBody) :
    (get_aggregated_test_results resp).1.passed +
      (get_aggregated_test_results resp).1.failed ≤
      (get_aggregated_test_results resp).1.total := by
  by_cases h : resp.status = 200
  · have hd : ∀ r : TestRecord, (outcomeOf r == "passed") = true →
        (outcomeOf r == "failed") = false := by
      intro r hr
      have he : outcomeOf r = "passed" := by simpa using hr
      simp [he]
    simpa [get_aggregated_test_results, h] using
      countP_disjoint_le_length (fun r => outcomeOf r == "passed")
        (fun r => outcomeOf r == "failed") hd resp.body.records
  · simp [get_aggregated_test_results, h]

/-- C8 (as stated) is false: no accepted test-result response can yield a
tally with `passed + failed > total`, since a record's lower-cased outcome
cannot equal both "passed" and "failed". -/
theorem claim8_counterexample :
    ¬ ∃ resp : HttpResponse TestBody, resp.status = 200 ∧
      (get_aggregated_test_results resp).1.passed +
        (get_aggregated_test_results resp).1.failed >
        (get_aggregated_test_results resp).1.total := by
  rintro ⟨resp, -, hlt⟩
  exact absurd hlt (not_lt.mpr (tally_passed_failed_le resp))

/-- C8 (amended): every tally satisfies `passed + failed ≤ total`; what the
source does not enforce is equality — for some accepted response (one holding
an inconclusive outcome) `passed + failed < total`. -/
theorem claim8_amended_invariant :
    (∀ resp : HttpResponse TestBody,
      (get_aggregated_test_results resp).1.passed +
        (get_aggregated_test_results resp).1.failed ≤
        (get_aggregated_test_results resp).1.total) ∧
    (∃ resp : HttpResponse TestBody, resp.status = 200 ∧
      (get_aggregated_test_results resp).1.passed +
        (get_aggregated_test_results resp).1.failed <
        (get_aggregated_test_results resp).1.total) := by
  refine ⟨tally_passed_failed_le,
    ⟨⟨200, TestBody.bare [⟨some "inconclusive"⟩], ""⟩, rfl, ?_⟩⟩
  decide

/-- C9: the build filter is a pass-through for the "None" sentinel; otherwise
it keeps exactly the subsequence of builds whose `buildNumber` contains the
configured substring (case-sensitive), and it is idempotent. -/
theorem claim9_filter_subsequence (buildFilters : String → String)
    (selected : String) (builds : List BuildSummary) (b : BuildSummary)
    (hsel : selected ≠ "None") :
    filterBuilds "None" buildFilters builds = builds ∧
    filterBuilds selected buildFilters (filterBuilds selected buildFilters builds) =
      filterBuilds selected buildFilters builds ∧
    List.Sublist (filterBuilds selected buildFilters builds) builds ∧
    (b ∈ filterBuilds selected buildFilters builds ↔
      b ∈ builds ∧ strContains b.buildNumber (buildFilters selected) = true) := by
  refine ⟨by simp [filterBuilds], ?_, ?_, ?_⟩
  · simp [filterBuilds, hsel, filter_idem]
  · simp only [filterBuilds, if_neg hsel]
    exact List.filter_sublist _
  · simp [filterBuilds, hsel, List.mem_filter]

theorem claim9_filter_subsequence_witness :
    ("nightly" : String) ≠ "None" ∧
    (filterBuilds "None" (fun _ => "1.")
        [⟨1, "1.0", "", "", ""⟩, ⟨2, "2.0", "", "", ""⟩] =
      [⟨1, "1.0", "", "", ""⟩, ⟨2, "2.0", "", "", ""⟩] ∧
    filterBuilds "nightly" (fun _ => "1.")
        (filterBuilds "nightly" (fun _ => "1.")
          [⟨1, "1.0", "", "", ""⟩, ⟨2, "2.0", "", "", ""⟩]) =
      filterBuilds "nightly" (fun _ => "1.")
        [⟨1, "1.0", "", "", ""⟩, ⟨2, "2.0", "", "", ""⟩] ∧
    List.Sublist
      (filterBuilds "nightly" (fun _ => "1.")
        [⟨1, "1.0", "", "", ""⟩, ⟨2, "2.0", "", "", ""⟩])
      [⟨1, "1.0", "", "", ""⟩, ⟨2, "2.0", "", "", ""⟩] ∧
    ((⟨1, "1.0", "", "", ""⟩ : BuildSummary) ∈
        filterBuilds "nightly" (fun _ => "1.")
          [⟨1, "1.0", "", "", ""⟩, ⟨2, "2.0", "", "", ""⟩] ↔
      (⟨1, "1.0", "", "", ""⟩ : BuildSummary) ∈
          [(⟨1, "1.0", "", "", ""⟩ : BuildSummary), ⟨2, "2.0", "", "", ""⟩] ∧
        strContains "1.0" "1." = true)) :=
  ⟨by decide,
    claim9_filter_subsequence (fun _ => "1.") "nightly"
      [⟨1, "1.0", "", "", ""⟩, ⟨2, "2.0", "", "", ""⟩]
      ⟨1, "1.0", "", "", ""⟩ (by decide)⟩

/-- C10: the `AzureAPI` class methods and the module-level functions are
behaviorally equivalent — same request URLs and identical results on every
response — when the class is built with the same token and called with the
module's configured organization and project. -/
theorem claim10_class_module_equivalence (pat organization project : String)
    (pipeline_id : Int) (max_builds : Option Int) (build_id : Int)
    (respB : HttpResponse BuildsBody) (respT : HttpResponse TestBody) :
    AzureAPI.get_builds_for_pipeline pat organization project respB =
      get_builds_for_pipeline organization project respB ∧
    AzureAPI.get_aggregated_test_results pat respT =
      get_aggregated_test_results respT ∧
    AzureAPI.buildsUrl organization project pipeline_id max_builds =
      buildsUrl organization project pipeline_id max_builds ∧
    AzureAPI.testResultsUrl organization project build_id =
      testResultsUrl organization project build_id :=
  ⟨rfl, rfl, rfl, rfl⟩
